import Mathlib

/-!
Verification of the AegisLab safety-observation workflow frontend.

The development shallowly embeds the pipeline orchestration core of the
repository: the transformation layer of the API service module
(`analyzeObservation`, `transformHazardToRiskData`,
`transformScoredHazardToScoreData`, `transformActionPlanToActions`,
`extractKeywords`, `mapTaxonomyToCategory`), the stage-animator timer logic
of the ScoreManager component, and the orchestrator state machine of the
Home page (stage transitions, completed-step history, ready flags, review
mode). JavaScript strings are Lean `String`; JavaScript numbers that the
code treats as integers are `Nat`; the backend confidence (a float in
[0,1]) is `Rat`; absent (`undefined`) fields are `Option`; JavaScript
truthiness on strings and numbers is modeled explicitly (empty string and
zero are falsy); property reads on object-literal lookup tables traverse
the `Object.prototype` chain, so a key naming a prototype member returns
a truthy inherited value rather than `undefined`.
-/

/-! ## JavaScript primitives used by the source -/

/-- `containsSub s sub` decides whether `sub` occurs as a contiguous
sublist of `s`. -/
def containsSub : List Char → List Char → Bool
  | [], sub => sub.isEmpty
  | c :: t, sub => sub.isPrefixOf (c :: t) || containsSub t sub

/-- Model of the JavaScript expression `s.includes(sub)` on strings:
substring containment. -/
def jsIncludes (s sub : String) : Bool :=
  containsSub s.toList sub.toList

/-- Model of `s.toLowerCase()` for the ASCII strings this code handles:
character-wise lowercasing. -/
def jsToLower (s : String) : String :=
  String.mk (s.toList.map Char.toLower)

/-- Model of `arr[0] || d` for a JavaScript array of strings: the first
element when present and truthy (non-empty), else the default. -/
def jsHeadOr (l : List String) (d : String) : String :=
  match l.head? with
  | some s => if s = "" then d else s
  | none => d

/-- Model of `x || d` for a possibly absent JavaScript number (zero and
`undefined` are falsy). -/
def jsOrNat (x : Option Nat) (d : Nat) : Nat :=
  match x with
  | some n => if n = 0 then d else n
  | none => d

/-- The property names of `Object.prototype` in a standard JavaScript
runtime.  A property read on a plain object literal traverses the
prototype chain, so reading any of these names on a lookup table whose
own keys do not shadow them yields a truthy inherited value (a built-in
function, or the prototype object itself for `__proto__`), never
`undefined`. -/
def objectPrototypeKeys : List String :=
  ["constructor", "hasOwnProperty", "isPrototypeOf", "propertyIsEnumerable",
   "toLocaleString", "toString", "valueOf", "__proto__",
   "__defineGetter__", "__defineSetter__", "__lookupGetter__",
   "__lookupSetter__"]

/-- The value of a JavaScript expression `table[key] || dflt` on a
string-valued object literal: either a string (an own entry, or the
default literal) or a truthy non-string member inherited from
`Object.prototype`. -/
inductive JsLookup where
  | str (s : String)
  | protoMember (name : String)
deriving DecidableEq

/-- Model of `table[key] || dflt` for a string-valued object literal,
including the prototype chain: an own entry wins when truthy (non-empty);
an own empty string is falsy and falls to the default; otherwise a key
that names an `Object.prototype` member returns that truthy inherited
member — the `||` does not fall through — and only the remaining keys
read `undefined` and produce the default. -/
def jsGetOr (own : List (String × String)) (key dflt : String) : JsLookup :=
  match own.lookup key with
  | some v => if v = "" then .str dflt else .str v
  | none =>
      if key ∈ objectPrototypeKeys then .protoMember key
      else .str dflt

/-! ## Data model (backend payload shapes and per-stage view-models) -/

/-- An observation record as handed off by the intake form (the fields
the transformation layer reads). -/
structure Observation where
  site : String
  potential : String
  type : String
  description : String
deriving DecidableEq

/-- A hazard returned by the analysis backend. -/
structure Hazard where
  description : String
  taxonomy_ref : String
  confidence : Rat
deriving DecidableEq

/-- A scored hazard returned by the analysis backend.  The `rpn` field may
be absent. -/
structure ScoredHazard where
  severity : Nat
  likelihood : Nat
  rpn : Option Nat
  priority : String
deriving DecidableEq

/-- A corrective task inside an action plan. -/
structure PlanTask where
  title : String
  description : String
  control_type : String
  responsible_role : String
  duration_minutes : Nat
  material_requirements : List String
deriving DecidableEq

/-- An action plan returned by the analysis backend (the fields read by
`transformActionPlanToActions`). -/
structure ActionPlan where
  tasks : List PlanTask
  standards_refs : List String
deriving DecidableEq

/-- The full backend response of one `analyzeObservation` call. -/
structure PipelineResult where
  hazards : List Hazard
  scored_hazards : List ScoredHazard
  action_plans : List ActionPlan
deriving DecidableEq

/-- Risk-stage view-model produced by `transformHazardToRiskData`.  The
`category` field holds whatever the JavaScript lookup produced: a string
for recognized codes, unrecognized non-prototype codes (the default) and
the component's hardcoded fallback literal, or an inherited
`Object.prototype` member for the prototype-name taxonomy codes. -/
structure RiskData where
  hazard : String
  category : JsLookup
  keywords : List String
  confidence : Int
deriving DecidableEq

/-- Score-stage view-model.  `riskScore` is an `Option` because
`transformScoredHazardToScoreData` copies the possibly absent `rpn`
field verbatim, so the stored value can be `undefined`. -/
structure ScoreData where
  severity : Nat
  likelihood : Nat
  riskScore : Option Nat
  category : String
  color : String
deriving DecidableEq

/-- Action-stage view-model item produced by `transformActionPlanToActions`. -/
structure ActionItem where
  id : Nat
  title : String
  description : String
  oshaCode : String
  priority : String
  controlType : String
  responsibleRole : String
  durationMinutes : Nat
  materials : List String
deriving DecidableEq

/-! ## Transformation layer (the API service module) -/

namespace Api

/-- The fixed safety-term vocabulary of `extractKeywords`. -/
def commonSafetyTerms : List String :=
  ["scaffolding", "fall", "falling", "slip", "trip", "electrical", "chemical",
   "fire", "machinery", "equipment", "guard", "barrier", "harness", "ppe",
   "hazard", "unsafe", "exposed", "unprotected", "damaged", "broken"]

/-- `extractKeywords` of the API service module: lowercases the
concatenation of the two descriptions, filters the vocabulary by substring
match, and returns `found.slice(0, Math.min(5, Math.max(3, found.length)))`. -/
def extractKeywords (hazardDesc observationDesc : String) : List String :=
  let text := jsToLower (hazardDesc ++ " " ++ observationDesc)
  let found := commonSafetyTerms.filter (fun term => jsIncludes text term)
  found.take (min 5 (max 3 found.length))

/-- The taxonomy-code lookup table of `mapTaxonomyToCategory`. -/
def taxonomyCategoryMap : List (String × String) :=
  [("HAZ-FALL-001", "Fall Protection / Scaffolding"),
   ("HAZ-FALL-002", "Slip, Trip & Fall"),
   ("HAZ-ELEC-001", "Electrical Safety"),
   ("HAZ-ELEC-002", "Arc Flash / Shock"),
   ("HAZ-CHEM-001", "Chemical Exposure"),
   ("HAZ-CHEM-002", "Toxic Substances"),
   ("HAZ-MECH-001", "Struck By / Caught In"),
   ("HAZ-MECH-002", "Machinery Safety"),
   ("HAZ-ERGO-001", "Ergonomic / Manual Handling"),
   ("HAZ-ERGO-002", "Repetitive Motion"),
   ("HAZ-FIRE-001", "Fire / Explosion"),
   ("HAZ-FIRE-002", "Hot Work"),
   ("HAZ-GEN-001", "General Safety"),
   ("HAZ-GEN-002", "Housekeeping")]

/-- `mapTaxonomyToCategory`: the object-literal read
`categoryMap[taxonomyRef] || "General Safety"`, with JavaScript property
semantics: an own entry for the fourteen table keys, the truthy inherited
member for a taxonomy code naming an `Object.prototype` member (the
default is then not reached), and "General Safety" for every other
code. -/
def mapTaxonomyToCategory (taxonomyRef : String) : JsLookup :=
  jsGetOr taxonomyCategoryMap taxonomyRef "General Safety"

/-- `transformHazardToRiskData`: builds the Risk-stage view-model from the
first backend hazard and the original observation.  `Math.round` on the
scaled rational confidence is Lean `round` (both round half toward
positive infinity). -/
def transformHazardToRiskData (hazard : Hazard) (observation : Observation) :
    RiskData :=
  { hazard := hazard.description
    category := mapTaxonomyToCategory hazard.taxonomy_ref
    keywords := extractKeywords hazard.description observation.description
    confidence := round (hazard.confidence * 100) }

/-- The priority lookup table of `transformScoredHazardToScoreData`:
priority code to display category and color. -/
def scoreCategoryMap : List (String × (String × String)) :=
  [("CRITICAL", ("Critical", "red")),
   ("HIGH", ("High", "orange")),
   ("MEDIUM", ("Medium", "yellow")),
   ("LOW", ("Low", "green"))]

/-- `transformScoredHazardToScoreData`: copies severity, likelihood and the
(possibly absent) `rpn` field verbatim into the view-model and maps the
priority code through the category table, defaulting to the MEDIUM entry. -/
def transformScoredHazardToScoreData (scoredHazard : ScoredHazard) :
    ScoreData :=
  let mapping :=
    match scoreCategoryMap.lookup scoredHazard.priority with
    | some m => m
    | none => ("Medium", "yellow")
  { severity := scoredHazard.severity
    likelihood := scoredHazard.likelihood
    riskScore := scoredHazard.rpn
    category := mapping.1
    color := mapping.2 }

/-- The control-type lookup table shared by `transformActionPlanToActions`
and the ActionPlanner component. -/
def priorityMap : List (String × String) :=
  [("ELIMINATION", "Immediate"),
   ("SUBSTITUTION", "Immediate"),
   ("ENGINEERING", "Before Next Shift"),
   ("ADMINISTRATIVE", "Daily"),
   ("PPE", "Before Next Shift")]

/-- `transformActionPlanToActions`: maps each task, with 1-based ids, the
shared first standards reference (`standards_refs[0] || "OSHA General
Duty"`, so an empty-string first reference also falls back), and the
control-type priority lookup with default `"Daily"`. -/
def transformActionPlanToActions (actionPlan : ActionPlan) : List ActionItem :=
  actionPlan.tasks.mapIdx (fun index task =>
    { id := index + 1
      title := task.title
      description := task.description
      oshaCode := jsHeadOr actionPlan.standards_refs "OSHA General Duty"
      priority :=
        match priorityMap.lookup task.control_type with
        | some p => p
        | none => "Daily"
      controlType := task.control_type
      responsibleRole := task.responsible_role
      durationMinutes := task.duration_minutes
      materials := task.material_requirements })

/-- A parsed JSON error body of a failed backend call (the `detail` field
may be absent). -/
structure JsonBody where
  detail : Option String
deriving DecidableEq

/-- A failed (non-2xx) backend response: its status code and its body,
`none` when the body is not parseable as JSON. -/
structure ApiFailure where
  status : Nat
  body : Option JsonBody
deriving DecidableEq

/-- The message `analyzeObservation` throws for a failed response:
`response.json()` replaced by `{detail: "Unknown error"}` when the body is
unparseable, then `error.detail || "API request failed with status N"`
(an empty-string detail is falsy and also falls back). -/
def errorMessage (f : ApiFailure) : String :=
  let errDetail : Option String :=
    match f.body with
    | none => some "Unknown error"
    | some b => b.detail
  match errDetail with
  | some d =>
      if d = "" then "API request failed with status " ++ toString f.status
      else d
  | none => "API request failed with status " ++ toString f.status

/-- The environment-supplied outcome of the single backend fetch. -/
inductive HttpResponse where
  | success (result : PipelineResult)
  | failure (f : ApiFailure)
deriving DecidableEq

/-- `analyzeObservation` as a function of the fetch outcome: returns the
parsed pipeline result on a 2xx response and throws (here: `Except.error`)
the computed message otherwise. -/
def analyzeObservation : HttpResponse → Except String PipelineResult
  | .success r => .ok r
  | .failure f => .error (errorMessage f)

end Api

/-! ## RiskAnalyzer component helpers (duplicated in the component) -/

namespace RiskAnalyzer

/-- The `extractKeywords` helper inside the RiskAnalyzer component: same
vocabulary and matching as the API service version, but returns the first
five matches when any match and a fixed three-term fallback otherwise. -/
def extractKeywords (hazardDesc observationDesc : String) : List String :=
  let text := jsToLower (hazardDesc ++ " " ++ observationDesc)
  let found := Api.commonSafetyTerms.filter (fun term => jsIncludes text term)
  if found.length > 0 then found.take 5 else ["safety", "hazard", "risk"]

end RiskAnalyzer

/-- `mapControlTypeToPriority` of the ActionPlanner component: the
object-literal read `mapping[controlType] || "Daily"` over the same table
as the API service, with JavaScript property semantics: an own entry for
the five control types, the truthy inherited member for a control type
naming an `Object.prototype` member, and "Daily" for every other
string. -/
def mapControlTypeToPriority (controlType : String) : JsLookup :=
  jsGetOr Api.priorityMap controlType "Daily"

/-! ## ScoreManager stage animator (timer-driven scripted sequence)

The component runs a scripted sequence driven by `setInterval` and
`setTimeout`: an evaluating interval (600ms, five narration steps), a
500ms timeout into the scoring phase, a severity meter interval (30ms
ticks of 0.1, modeled in tenths), an 800ms timeout starting the likelihood
meter interval (30ms ticks), a 500ms settle timeout that sets the result
and the complete phase, and a final 1000ms timeout that invokes
`onComplete`.  The model is an event queue of (absolute time, creation
sequence number, timer) entries processed in time order.  React semantics
relevant here: unmounting runs each active effect's cleanup (the
evaluating effect clears its interval; the scoring effect's cleanup is the
empty function, so none of its timers are cleared); after unmount, state
setters are dropped but timer callbacks themselves still run, including
the `onComplete` invocation.  Display-only state (the animated meter
values and narration index rendering) is not modeled; the closure
counters that drive timer termination are. -/

namespace ScoreManager

/-- The component's priority lookup table (a duplicate of the API service
table, declared inside the component). -/
def priorityCategoryMap : List (String × (String × String)) :=
  [("CRITICAL", ("Critical", "red")),
   ("HIGH", ("High", "orange")),
   ("MEDIUM", ("Medium", "yellow")),
   ("LOW", ("Low", "green"))]

/-- `mapPriorityToCategory`: lookup with default branch
`|| mapping["MEDIUM"]`. -/
def mapPriorityToCategory (priority : String) : String × String :=
  match priorityCategoryMap.lookup priority with
  | some m => m
  | none => ("Medium", "yellow")

/-- The component's `scoreResult` value: built from the backend scored
hazard when present, with the truthiness defaults `severity || 4`,
`likelihood || 3` and `rpn || severity * likelihood`; else the fixed
simulated fallback. -/
def scoreResult (apiData : Option ScoredHazard) : ScoreData :=
  match apiData with
  | some a =>
      { severity := jsOrNat (some a.severity) 4
        likelihood := jsOrNat (some a.likelihood) 3
        riskScore := some (jsOrNat a.rpn (a.severity * a.likelihood))
        category := (mapPriorityToCategory a.priority).1
        color := (mapPriorityToCategory a.priority).2 }
  | none =>
      { severity := 4
        likelihood := 3
        riskScore := some 12
        category := "High"
        color := "orange" }

/-- The five narration strings of the evaluating phase. -/
def evaluationSteps : List String :=
  ["Calibrating severity matrix...",
   "Assessing injury potential...",
   "Calculating likelihood factors...",
   "Evaluating exposure frequency...",
   "Computing final risk score..."]

/-- The named phases of the scripted sequence. -/
inductive Phase where
  | evaluating
  | scoring
  | complete
deriving DecidableEq

/-- The timers the component creates.  `evalTick` is the evaluating
interval; `phaseToScoring` the 500ms timeout into the scoring phase;
`sevTick` and `likTick` the meter intervals; `likStart` the 800ms timeout
creating the likelihood interval; `settle` the 500ms timeout setting
result and complete phase; `signal` the 1000ms timeout invoking
`onComplete`. -/
inductive Timer where
  | evalTick
  | phaseToScoring
  | sevTick
  | likStart
  | likTick
  | settle
  | signal
deriving DecidableEq

/-- Animator state: current phase and narration index (React state),
closure counters of the meter intervals (in tenths), the stored result,
whether the component is still mounted, the list of results passed to
`onComplete` so far, the current time, a sequence counter and the queue of
pending timers. -/
structure TState where
  phase : Phase
  evalIndex : Nat
  sevVal : Nat
  likVal : Nat
  result : Option ScoreData
  mounted : Bool
  emitted : List ScoreData
  now : Nat
  seq : Nat
  queue : List (Nat × Nat × Timer)
deriving DecidableEq

/-- Schedule a timer `delay` milliseconds from the current time. -/
def schedule (delay : Nat) (t : Timer) (s : TState) : TState :=
  { s with queue := s.queue ++ [(s.now + delay, s.seq, t)], seq := s.seq + 1 }

/-- The next timer to fire: smallest (time, sequence) pair. -/
def pickMin : List (Nat × Nat × Timer) → Option (Nat × Nat × Timer)
  | [] => none
  | e :: es =>
      some (es.foldl
        (fun best x =>
          if x.1 < best.1 ∨ (x.1 = best.1 ∧ x.2.1 < best.2.1) then x else best)
        e)

/-- Fire one timer.  State setters run only while mounted; closure
arithmetic, timer creation and the `onComplete` callback run
unconditionally, as in the source. -/
def fire (cfg : Option ScoredHazard) (t : Timer) (s : TState) : TState :=
  match t with
  | .evalTick =>
      if s.mounted then
        if s.evalIndex ≥ evaluationSteps.length - 1 then
          schedule 500 .phaseToScoring s
        else
          schedule 600 .evalTick { s with evalIndex := s.evalIndex + 1 }
      else
        schedule 600 .evalTick s
  | .phaseToScoring =>
      if s.mounted then
        schedule 800 .likStart
          (schedule 30 .sevTick { s with phase := .scoring, sevVal := 0 })
      else s
  | .sevTick =>
      let s2 := { s with sevVal := s.sevVal + 1 }
      if s2.sevVal ≥ 10 * (scoreResult cfg).severity then s2
      else schedule 30 .sevTick s2
  | .likStart =>
      schedule 30 .likTick { s with likVal := 0 }
  | .likTick =>
      let s2 := { s with likVal := s.likVal + 1 }
      if s2.likVal ≥ 10 * (scoreResult cfg).likelihood then
        schedule 500 .settle s2
      else schedule 30 .likTick s2
  | .settle =>
      let s2 :=
        if s.mounted then { s with result := some (scoreResult cfg), phase := .complete }
        else s
      schedule 1000 .signal s2
  | .signal =>
      { s with emitted := s.emitted ++ [scoreResult cfg] }

/-- Fire the next pending timer, if any. -/
def step (cfg : Option ScoredHazard) (s : TState) : TState :=
  match pickMin s.queue with
  | none => s
  | some e => fire cfg e.2.2 { s with queue := s.queue.erase e, now := e.1 }

/-- Run `n` scheduler steps. -/
def run (cfg : Option ScoredHazard) : Nat → TState → TState
  | 0, s => s
  | n + 1, s => run cfg n (step cfg s)

/-- Initial state of a scripted activation (`skipAnimation` false): phase
evaluating, and the evaluating effect has scheduled its 600ms interval. -/
def initScripted : TState :=
  schedule 600 .evalTick
    { phase := .evaluating, evalIndex := 0, sevVal := 0, likVal := 0,
      result := none, mounted := true, emitted := [], now := 0, seq := 0,
      queue := [] }

/-- Initial state of an immediate activation (`skipAnimation` true): phase
complete from the start, the skip effect has stored the result, and the
timer effects bail out, so the queue is empty. -/
def initImmediate (cfg : Option ScoredHazard) : TState :=
  { phase := .complete, evalIndex := 0, sevVal := 0, likVal := 0,
    result := some (scoreResult cfg), mounted := true, emitted := [],
    now := 0, seq := 0, queue := [] }

/-- Deactivation by navigating away (the component unmounts): every active
effect's cleanup runs.  The evaluating effect clears its interval; the
scoring effect's cleanup is the empty function, so the timers it created
stay pending. -/
def deactivate (s : TState) : TState :=
  { s with mounted := false,
           queue := s.queue.filter (fun e => e.2.2 ≠ Timer.evalTick) }

end ScoreManager

/-! ## Pipeline orchestrator (the Home page state machine)

The Home page owns the workflow state in React `useState` hooks and
mutates it only inside its handler functions.  Each handler is modeled as
a state transition; the conditions under which the page makes a handler
reachable (which buttons and callbacks are rendered or wired in each
stage) form the enabling relation. -/

/-- The workflow stages. -/
inductive Stage where
  | form
  | risk
  | score
  | action
  | summary
deriving DecidableEq

/-- The orchestrator state: one field per `useState` hook of the Home
page. -/
structure WorkflowState where
  stage : Stage
  observation : Option Observation
  riskData : Option RiskData
  scoreData : Option ScoreData
  actions : Option (List ActionItem)
  completedSteps : List String
  isSubmitting : Bool
  error : Option String
  pipelineResult : Option PipelineResult
  riskReady : Bool
  scoreReady : Bool
  actionReady : Bool
  viewingFromSummary : Bool
deriving DecidableEq

/-- The initial state (the `useState` initializers); `handleReset` also
restores exactly this state. -/
def initialState : WorkflowState :=
  { stage := .form, observation := none, riskData := none, scoreData := none,
    actions := none, completedSteps := [], isSubmitting := false,
    error := none, pipelineResult := none, riskReady := false,
    scoreReady := false, actionReady := false, viewingFromSummary := false }

/-- A placeholder observation.  `handleRiskComplete` reads
`observation.description` only when a backend hazard exists, and every
path to that point has stored the submitted observation, so the
placeholder is never consumed in a reachable state. -/
def emptyObservation : Observation :=
  { site := "", potential := "", type := "", description := "" }

/-- The value `handleRiskComplete` stores: the transformation layer output
for the first backend hazard when one exists, else the animator's own
fallback payload. -/
def riskResultOf (pr : Option PipelineResult) (obs : Option Observation)
    (d : RiskData) : RiskData :=
  match pr with
  | some p =>
      match p.hazards with
      | h :: _ => Api.transformHazardToRiskData h (obs.getD emptyObservation)
      | [] => d
  | none => d

/-- The value `handleScoreComplete` stores: the transformation layer
output for the first backend scored hazard when one exists, else the
animator's payload. -/
def scoreResultOf (pr : Option PipelineResult) (d : ScoreData) : ScoreData :=
  match pr with
  | some p =>
      match p.scored_hazards with
      | sh :: _ => Api.transformScoredHazardToScoreData sh
      | [] => d
  | none => d

/-- The value `handleActionComplete` stores: the transformation layer
output for the first backend action plan when one exists, else the
animator's payload. -/
def actionsResultOf (pr : Option PipelineResult) (d : List ActionItem) :
    List ActionItem :=
  match pr with
  | some p =>
      match p.action_plans with
      | ap :: _ => Api.transformActionPlanToActions ap
      | [] => d
  | none => d

/-- The orchestrator events: one per handler of the Home page.  `submit`
carries the observation and the outcome of the single backend fetch;
the three `...Complete` events carry the animator's payload. -/
inductive Event where
  | submit (data : Observation) (resp : Api.HttpResponse)
  | riskComplete (d : RiskData)
  | continueToScore
  | scoreComplete (d : ScoreData)
  | continueToAction
  | actionComplete (d : List ActionItem)
  | continueToSummary
  | reset
  | viewAgent (agentType : String)
  | backToSummary

/-- The handler bodies of the Home page, as state transitions. -/
def applyEvent : Event → WorkflowState → WorkflowState
  | .submit data resp, s =>
      match Api.analyzeObservation resp with
      | .ok r =>
          { s with observation := some data, error := none,
                   pipelineResult := some r, stage := .risk,
                   isSubmitting := false }
      | .error m =>
          { s with observation := some data, error := some m,
                   isSubmitting := false }
  | .riskComplete d, s =>
      { s with riskData := some (riskResultOf s.pipelineResult s.observation d),
               riskReady := true }
  | .continueToScore, s =>
      { s with completedSteps := s.completedSteps ++ ["risk"],
               stage := .score, riskReady := false }
  | .scoreComplete d, s =>
      { s with scoreData := some (scoreResultOf s.pipelineResult d),
               scoreReady := true }
  | .continueToAction, s =>
      { s with completedSteps := s.completedSteps ++ ["score"],
               stage := .action, scoreReady := false }
  | .actionComplete d, s =>
      { s with actions := some (actionsResultOf s.pipelineResult d),
               actionReady := true }
  | .continueToSummary, s =>
      { s with completedSteps := s.completedSteps ++ ["action"],
               stage := .summary, actionReady := false }
  | .reset, _ => initialState
  | .viewAgent agentType, s =>
      let s2 := { s with viewingFromSummary := true }
      if agentType = "risk" then { s2 with stage := .risk, riskReady := true }
      else if agentType = "score" then { s2 with stage := .score, scoreReady := true }
      else if agentType = "action" then { s2 with stage := .action, actionReady := true }
      else s2
  | .backToSummary, s =>
      { s with viewingFromSummary := false, stage := .summary }

/-- When the Home page makes each handler invocable: the form is rendered
only on the FORM stage; each Continue button only on its stage, when the
stage is ready and not in review mode; the summary's view buttons only on
SUMMARY; the back button only in review mode.  Animator completion
callbacks are unguarded: a mounted animator fires them, and the stale
timers of a deactivated one can fire them too. -/
def enabled : Event → WorkflowState → Prop
  | .submit _ _, s => s.stage = .form
  | .riskComplete _, _ => True
  | .continueToScore, s =>
      s.stage = .risk ∧ s.riskReady = true ∧ s.viewingFromSummary = false
  | .scoreComplete _, _ => True
  | .continueToAction, s =>
      s.stage = .score ∧ s.scoreReady = true ∧ s.viewingFromSummary = false
  | .actionComplete _, _ => True
  | .continueToSummary, s =>
      s.stage = .action ∧ s.actionReady = true ∧ s.viewingFromSummary = false
  | .reset, _ => True
  | .viewAgent _, s => s.stage = .summary
  | .backToSummary, s => s.viewingFromSummary = true

/-- The states one workflow run can reach through enabled events. -/
inductive Reachable : WorkflowState → Prop where
  | init : Reachable initialState
  | step {s : WorkflowState} (e : Event) :
      Reachable s → enabled e s → Reachable (applyEvent e s)

/-- The completed-step history determined by the stage outside review
mode. -/
def stageCompleted : Stage → List String
  | .form => []
  | .risk => []
  | .score => ["risk"]
  | .action => ["risk", "score"]
  | .summary => ["risk", "score", "action"]

/-- The history invariant: in review mode all three stages are completed;
otherwise the history is exactly the prefix determined by the current
stage. -/
def HistoryInv (s : WorkflowState) : Prop :=
  s.completedSteps =
    if s.viewingFromSummary then ["risk", "score", "action"]
    else stageCompleted s.stage

/-! ## Concrete payloads used in scenario theorems and witnesses -/

/-- The observation of the specification scenarios. -/
def scenarioObservation : Observation :=
  { site := "Building A - 3rd Floor", potential := "HAZARD",
    type := "UNSAFE_CONDITION", description := "worker on unguarded scaffold" }

/-- The backend hazard of the specification scenario. -/
def scenarioHazard : Hazard :=
  { description := "Unguarded scaffold edge", taxonomy_ref := "HAZ-FALL-001",
    confidence := 0.92 }

/-- The scored hazard of the specification scenario: severity 5,
likelihood 5, priority CRITICAL, `rpn` absent. -/
def criticalScored : ScoredHazard :=
  { severity := 5, likelihood := 5, rpn := none, priority := "CRITICAL" }

/-- The RiskAnalyzer component's hardcoded simulated result (its fallback
payload when no backend data exists). -/
def simulatedRiskResult : RiskData :=
  { hazard := "Slipping hazard due to unstable scaffolding board",
    category := .str "Fall Protection / Scaffolding",
    keywords := ["scaffolding", "slipped", "falling"], confidence := 94 }

/-- A small action plan used as a concrete witness input. -/
def demoPlan : ActionPlan :=
  { tasks :=
      [{ title := "Install guardrails on scaffolding platform",
         description := "Add standard guardrails to all open sides",
         control_type := "ENGINEERING", responsible_role := "safety_engineer",
         duration_minutes := 120, material_requirements := ["guardrails"] },
       { title := "Perform daily stability check",
         description := "Pre-shift inspection protocol",
         control_type := "ADMINISTRATIVE", responsible_role := "supervisor",
         duration_minutes := 30, material_requirements := [] }],
    standards_refs := ["OSHA 1926.451(g)(1)", "OSHA 1926.451(f)(3)"] }

/-- A complete backend response used as a concrete witness input. -/
def demoPipeline : PipelineResult :=
  { hazards := [scenarioHazard], scored_hazards := [criticalScored],
    action_plans := [demoPlan] }

/-- A workflow state at the summary with the whole run completed, used as
a concrete witness input. -/
def summaryState : WorkflowState :=
  { initialState with
    stage := .summary
    completedSteps := ["risk", "score", "action"]
    observation := some scenarioObservation
    pipelineResult := some demoPipeline
    riskData := some simulatedRiskResult }

/-! ## Invariant lemmas for the orchestrator -/

theorem historyInv_init : HistoryInv initialState := by
  simp [HistoryInv, initialState, stageCompleted]

theorem historyInv_applyEvent (e : Event) (s : WorkflowState)
    (hI : HistoryInv s) (hE : enabled e s) : HistoryInv (applyEvent e s) := by
  cases e with
  | submit data resp =>
      simp only [enabled] at hE
      simp only [HistoryInv, hE, stageCompleted] at hI
      cases h : Api.analyzeObservation resp with
      | ok r => simp [HistoryInv, applyEvent, h, hI, stageCompleted]
      | error m => simp [HistoryInv, applyEvent, h, hI, hE, stageCompleted]
  | riskComplete d => simpa [HistoryInv, applyEvent] using hI
  | continueToScore =>
      obtain ⟨h1, _, h3⟩ := hE
      simp only [HistoryInv, h1, h3, stageCompleted, if_neg] at hI
      simp [HistoryInv, applyEvent, hI, h3, stageCompleted]
  | scoreComplete d => simpa [HistoryInv, applyEvent] using hI
  | continueToAction =>
      obtain ⟨h1, _, h3⟩ := hE
      simp only [HistoryInv, h1, h3, stageCompleted, if_neg] at hI
      simp [HistoryInv, applyEvent, hI, h3, stageCompleted]
  | actionComplete d => simpa [HistoryInv, applyEvent] using hI
  | continueToSummary =>
      obtain ⟨h1, _, h3⟩ := hE
      simp only [HistoryInv, h1, h3, stageCompleted, if_neg] at hI
      simp [HistoryInv, applyEvent, hI, h3, stageCompleted]
  | reset => simp [HistoryInv, applyEvent, initialState, stageCompleted]
  | viewAgent agentType =>
      simp only [enabled] at hE
      have hc : s.completedSteps = ["risk", "score", "action"] := by
        by_cases hv : s.viewingFromSummary = true
        · simpa [HistoryInv, hv] using hI
        · simp only [Bool.not_eq_true] at hv
          simpa [HistoryInv, hv, hE, stageCompleted] using hI
      simp only [applyEvent]
      split_ifs <;> simp [HistoryInv, hc]
  | backToSummary =>
      simp only [enabled] at hE
      simp only [HistoryInv, hE, if_pos] at hI
      simp [HistoryInv, applyEvent, hI, stageCompleted]

theorem historyInv_reachable (s : WorkflowState) (h : Reachable s) :
    HistoryInv s := by
  induction h with
  | init => exact historyInv_init
  | step e _ hE ih => exact historyInv_applyEvent e _ ih hE

/-! ## Helper lemmas -/

theorem lookup_eq_none_of_not_mem_keys {β : Type} (l : List (String × β))
    (k : String) (h : k ∉ l.map Prod.fst) : l.lookup k = none := by
  induction l with
  | nil => rfl
  | cons p t ih =>
      obtain ⟨a, b⟩ := p
      simp only [List.map_cons, List.mem_cons, not_or] at h
      obtain ⟨h1, h2⟩ := h
      simp only [List.lookup]
      rw [show (k == a) = false by simp [h1]]
      exact ih h2

/-! ## Claim theorems -/

/-- C1: for the scored hazard severity 5 / likelihood 5 / priority
CRITICAL with `rpn` absent, the transformation layer's view-model — the
value `handleScoreComplete` actually stores, superseding the animator's
payload — has `riskScore` undefined (`none`), not 25, while the animator's
own recomputed result does carry 25; the category is "Critical" as
claimed.  This exhibits the divergence between the code and the claimed
severity-times-likelihood recomputation. -/
theorem c1_riskScore_undefined_when_rpn_absent :
    (Api.transformScoredHazardToScoreData criticalScored).riskScore = none ∧
    (Api.transformScoredHazardToScoreData criticalScored).category = "Critical" ∧
    (ScoreManager.scoreResult (some criticalScored)).riskScore = some 25 ∧
    scoreResultOf (some demoPipeline) (ScoreManager.scoreResult (some criticalScored))
      = Api.transformScoredHazardToScoreData criticalScored := by
  decide

set_option maxRecDepth 10000 in
/-- C2: deactivating a ScoreManager whose scripted sequence is in the
scoring phase (before "complete") does not cancel its pending timers —
the scoring effect's cleanup is the empty function — so the stale
`onComplete` (stageResultReady) callback still fires afterwards.  For
contrast, deactivation during the evaluating phase does cancel the only
pending timer (the evaluating interval) and nothing is ever emitted. -/
theorem c2_stale_signal_after_deactivation :
    (ScoreManager.run (some criticalScored) 6 ScoreManager.initScripted).phase
      = ScoreManager.Phase.scoring ∧
    (ScoreManager.run (some criticalScored) 120
        (ScoreManager.deactivate
          (ScoreManager.run (some criticalScored) 6 ScoreManager.initScripted))).emitted
      = [ScoreManager.scoreResult (some criticalScored)] ∧
    (ScoreManager.deactivate
        (ScoreManager.run (some criticalScored) 2 ScoreManager.initScripted)).queue
      = [] ∧
    (ScoreManager.run (some criticalScored) 100
        (ScoreManager.deactivate
          (ScoreManager.run (some criticalScored) 2 ScoreManager.initScripted))).emitted
      = [] := by
  decide

/-- C3 counterexample: an immediate-mode (skip-animation) activation of
the ScoreManager animator schedules no timers and never invokes
`onComplete`: zero stageResultReady signals are emitted, not exactly
one. -/
theorem c3_immediate_mode_emits_no_signal :
    (ScoreManager.initImmediate (some criticalScored)).queue = [] ∧
    (ScoreManager.run (some criticalScored) 50
        (ScoreManager.initImmediate (some criticalScored))).emitted.length = 0 := by
  decide

set_option maxRecDepth 10000 in
/-- C3 amended: a scripted activation emits exactly one stageResultReady
signal and reaches quiescence; an immediate-mode activation emits none,
and instead the orchestrator's `handleViewAgent` marks the re-entered
stage ready directly, leaving the stored stage result unchanged
(idempotent re-entry). -/
theorem c3_one_signal_scripted_none_immediate (s : WorkflowState)
    (h : s.stage = .summary) :
    (ScoreManager.run none 100 ScoreManager.initScripted).emitted.length = 1 ∧
    (ScoreManager.run none 100 ScoreManager.initScripted).queue = [] ∧
    (ScoreManager.run none 100 (ScoreManager.initImmediate none)).emitted.length = 0 ∧
    (applyEvent (.viewAgent "score") s).scoreData = s.scoreData ∧
    (applyEvent (.viewAgent "score") s).scoreReady = true := by
  refine ⟨by decide, by decide, by decide, ?_, ?_⟩ <;> simp [applyEvent]

/-- C3 witness: the amended statement instantiated at a concrete summary
state. -/
theorem c3_witness :
    (applyEvent (.viewAgent "score") summaryState).scoreData = summaryState.scoreData ∧
    (applyEvent (.viewAgent "score") summaryState).scoreReady = true := by
  have h := c3_one_signal_scripted_none_immediate summaryState rfl
  exact ⟨h.2.2.2.1, h.2.2.2.2⟩

/-- C4: the API service `extractKeywords` returns a single keyword (not
3 to 5) when exactly one vocabulary term matches, and the empty list (not
a 3-term fallback) when none match — contradicting its own "Return top
3-5 keywords" comment; the RiskAnalyzer duplicate does use the 3-term
fallback but still returns fewer than three keywords for one match. -/
theorem c4_extractKeywords_count_violations :
    Api.extractKeywords "fire" "" = ["fire"] ∧
    Api.extractKeywords "routine walkthrough" "no findings" = [] ∧
    RiskAnalyzer.extractKeywords "fire" "" = ["fire"] ∧
    RiskAnalyzer.extractKeywords "routine walkthrough" "no findings"
      = ["safety", "hazard", "risk"] := by
  decide

/-- C5 counterexample: in the specification scenario the derived keyword
list does not include "scaffolding" — the text "unguarded scaffold edge
worker on unguarded scaffold" contains no occurrence of the substring
"scaffolding"; the only vocabulary match is "guard". -/
theorem c5_keywords_do_not_include_scaffolding :
    "scaffolding" ∉
      (Api.transformHazardToRiskData scenarioHazard scenarioObservation).keywords := by
  decide

/-- C5 amended: the Risk stage view-model for the scenario has the claimed
hazard text, category and confidence, and keyword list `["guard"]`. -/
theorem c5_risk_view_model :
    Api.transformHazardToRiskData scenarioHazard scenarioObservation =
      { hazard := "Unguarded scaffold edge",
        category := .str "Fall Protection / Scaffolding",
        keywords := ["guard"], confidence := 92 } := by
  have hc : round ((0.92 : Rat) * 100) = (92 : Int) := by norm_num [round_eq]
  have hk : Api.extractKeywords "Unguarded scaffold edge" "worker on unguarded scaffold"
      = ["guard"] := by decide
  have hcat : Api.mapTaxonomyToCategory "HAZ-FALL-001"
      = JsLookup.str "Fall Protection / Scaffolding" := by decide
  simp [Api.transformHazardToRiskData, scenarioHazard, scenarioObservation,
    hk, hcat, hc, RiskData.mk.injEq]

/-- C6 counterexample: a failure body that does contain a `detail` field
whose value is the empty string is not surfaced verbatim — JavaScript
truthiness routes it to the status fallback message instead. -/
theorem c6_empty_detail_not_surfaced :
    (applyEvent
        (.submit scenarioObservation
          (.failure { status := 500, body := some { detail := some "" } }))
        initialState).error
      = some "API request failed with status 500" ∧
    ("API request failed with status 500" : String) ≠ "" := by
  constructor
  · rfl
  · decide

/-- C6 amended: for every backend failure of the submit call from FORM,
the stage stays FORM, the submitting flag ends false, and the recorded
error equals the backend `detail` when the body carries a non-empty one,
the string "Unknown error" when the body is unparseable, and the generic
status message when the body parses but carries no usable detail. -/
theorem c6_submit_failure_contract (obs : Observation) (f : Api.ApiFailure)
    (s : WorkflowState) (h : s.stage = .form) :
    ((applyEvent (.submit obs (.failure f)) s).stage = .form ∧
     (applyEvent (.submit obs (.failure f)) s).isSubmitting = false ∧
     (applyEvent (.submit obs (.failure f)) s).error = some (Api.errorMessage f)) ∧
    (∀ d, f.body = some { detail := some d } → d ≠ "" → Api.errorMessage f = d) ∧
    (f.body = none → Api.errorMessage f = "Unknown error") ∧
    ((f.body = some { detail := none } ∨ f.body = some { detail := some "" }) →
      Api.errorMessage f = "API request failed with status " ++ toString f.status) := by
  refine ⟨⟨h, rfl, rfl⟩, ?_, ?_, ?_⟩
  · intro d hb hd
    simp [Api.errorMessage, hb, hd]
  · intro hb
    simp [Api.errorMessage, hb]
  · rintro (hb | hb) <;> simp [Api.errorMessage, hb]

/-- C6 witness: the contract at a concrete 404 failure with a non-empty
detail, from the initial state. -/
theorem c6_submit_failure_contract_witness :
    (applyEvent
        (.submit scenarioObservation
          (.failure { status := 404, body := some { detail := some "Site not found" } }))
        initialState).stage = .form ∧
    (applyEvent
        (.submit scenarioObservation
          (.failure { status := 404, body := some { detail := some "Site not found" } }))
        initialState).error = some "Site not found" := by
  have h := c6_submit_failure_contract scenarioObservation
    { status := 404, body := some { detail := some "Site not found" } }
    initialState rfl
  refine ⟨h.1.1, ?_⟩
  rw [h.1.2.2, h.2.1 "Site not found" rfl (by decide)]

/-- C7 counterexample: `handleContinueToScore` appends unconditionally —
applied to a state whose history already contains "risk" it produces a
duplicate entry, so the append operation itself is not idempotent. -/
theorem c7_continue_appends_nonidempotently :
    (applyEvent .continueToScore
      { initialState with
        stage := .risk
        riskReady := true
        completedSteps := ["risk"] }).completedSteps = ["risk", "risk"] ∧
    ¬ (applyEvent .continueToScore
      { initialState with
        stage := .risk
        riskReady := true
        completedSteps := ["risk"] }).completedSteps.Nodup := by
  decide

/-- C7 amended: in every reachable workflow state the completed-stage
history is duplicate-free — the continue handlers append unconditionally,
but their enabling conditions never hold in a state whose history already
contains the stage being appended — and no stageResultReady handler ever
modifies the history. -/
theorem c7_history_nodup_reachable (s : WorkflowState) (h : Reachable s) :
    s.completedSteps.Nodup ∧
    (∀ d, (applyEvent (.riskComplete d) s).completedSteps = s.completedSteps) ∧
    (∀ d, (applyEvent (.scoreComplete d) s).completedSteps = s.completedSteps) ∧
    (∀ d, (applyEvent (.actionComplete d) s).completedSteps = s.completedSteps) := by
  refine ⟨?_, fun d => rfl, fun d => rfl, fun d => rfl⟩
  have hI := historyInv_reachable s h
  rw [HistoryInv] at hI
  rw [hI]
  cases hv : s.viewingFromSummary with
  | false => cases s.stage <;> simp [stageCompleted]
  | true => simp

/-- C7 witness: duplicate-freedom at the concrete reachable state after
submit success, risk completion and continue-to-score. -/
theorem c7_witness :
    (applyEvent .continueToScore
      (applyEvent (.riskComplete simulatedRiskResult)
        (applyEvent (.submit scenarioObservation (.success demoPipeline))
          initialState))).completedSteps.Nodup :=
  (c7_history_nodup_reachable _
    (Reachable.step .continueToScore
      (Reachable.step (.riskComplete simulatedRiskResult)
        (Reachable.step (.submit scenarioObservation (.success demoPipeline))
          Reachable.init rfl)
        trivial)
      ⟨rfl, rfl, rfl⟩)).1

/-- C8: from any summary state with "risk" completed, viewing the risk
stage and returning to the summary preserves the completed-stage history
and all three stored result objects, and ends back at SUMMARY. -/
theorem c8_view_risk_round_trip (s : WorkflowState)
    (h1 : s.stage = .summary) (h2 : "risk" ∈ s.completedSteps) :
    (applyEvent .backToSummary (applyEvent (.viewAgent "risk") s)).completedSteps
      = s.completedSteps ∧
    (applyEvent .backToSummary (applyEvent (.viewAgent "risk") s)).riskData
      = s.riskData ∧
    (applyEvent .backToSummary (applyEvent (.viewAgent "risk") s)).scoreData
      = s.scoreData ∧
    (applyEvent .backToSummary (applyEvent (.viewAgent "risk") s)).actions
      = s.actions ∧
    (applyEvent .backToSummary (applyEvent (.viewAgent "risk") s)).stage
      = .summary := by
  simp [applyEvent]

/-- C8 witness: the round trip at a concrete completed summary state. -/
theorem c8_witness :
    (applyEvent .backToSummary (applyEvent (.viewAgent "risk") summaryState)).completedSteps
      = summaryState.completedSteps ∧
    (applyEvent .backToSummary (applyEvent (.viewAgent "risk") summaryState)).riskData
      = summaryState.riskData ∧
    (applyEvent .backToSummary (applyEvent (.viewAgent "risk") summaryState)).stage
      = .summary := by
  have h := c8_view_risk_round_trip summaryState rfl (by decide)
  exact ⟨h.1, h.2.1, h.2.2.2.2⟩

/-- C9 counterexample: the unrecognized taxonomy code "constructor" and
the unrecognized control type "toString" name `Object.prototype` members,
so the object-literal reads return the truthy inherited member — `||`
does not fall through — and neither function produces its claimed
default. -/
theorem c9_prototype_counterexample :
    Api.mapTaxonomyToCategory "constructor" = .protoMember "constructor" ∧
    Api.mapTaxonomyToCategory "constructor" ≠ .str "General Safety" ∧
    mapControlTypeToPriority "toString" = .protoMember "toString" ∧
    mapControlTypeToPriority "toString" ≠ .str "Daily" := by
  decide

/-- C9 amended: the taxonomy and control-type lookups are total functions
of the input string (no input throws), and every code outside the
respective tables maps to the "General Safety" and "Daily" defaults —
except the twelve codes naming an `Object.prototype` member, which
return the truthy inherited member instead of the default. -/
theorem c9_lookup_defaults (t c : String)
    (ht : t ∉ Api.taxonomyCategoryMap.map Prod.fst)
    (htp : t ∉ objectPrototypeKeys)
    (hc : c ∉ Api.priorityMap.map Prod.fst)
    (hcp : c ∉ objectPrototypeKeys) :
    Api.mapTaxonomyToCategory t = .str "General Safety" ∧
    mapControlTypeToPriority c = .str "Daily" := by
  constructor
  · unfold Api.mapTaxonomyToCategory jsGetOr
    rw [lookup_eq_none_of_not_mem_keys _ _ ht]
    simp [htp]
  · unfold mapControlTypeToPriority jsGetOr
    rw [lookup_eq_none_of_not_mem_keys _ _ hc]
    simp [hcp]

/-- C9 witness: the defaults at two concrete unrecognized, non-prototype
codes. -/
theorem c9_witness :
    Api.mapTaxonomyToCategory "HAZ-UNKNOWN-999" = .str "General Safety" ∧
    mapControlTypeToPriority "UNRECOGNIZED" = .str "Daily" :=
  c9_lookup_defaults "HAZ-UNKNOWN-999" "UNRECOGNIZED"
    (by decide) (by decide) (by decide) (by decide)

/-- C10 counterexample: with a non-empty `standards_refs` list whose first
element is the empty string, the produced `oshaCode` is the fallback
"OSHA General Duty", not the first standards reference. -/
theorem c10_empty_first_ref_falls_back :
    (Api.transformActionPlanToActions
      { tasks :=
          [{ title := "t", description := "d", control_type := "ENGINEERING",
             responsible_role := "r", duration_minutes := 5,
             material_requirements := [] }],
        standards_refs := [""] }).map ActionItem.oshaCode
      = ["OSHA General Duty"] ∧
    ("OSHA General Duty" : String) ≠ "" := by
  decide

/-- C10 amended: `transformActionPlanToActions` preserves the length and
order of the task list, numbers items 1-based, and gives every item the
`oshaCode` `standards_refs[0] || "OSHA General Duty"`, which equals the
first standards reference whenever the list is non-empty and its first
element is a non-empty string. -/
theorem c10_transform_action_plan_shape (plan : ActionPlan) :
    (Api.transformActionPlanToActions plan).length = plan.tasks.length ∧
    (∀ i (h : i < plan.tasks.length)
       (h2 : i < (Api.transformActionPlanToActions plan).length),
       ((Api.transformActionPlanToActions plan).get ⟨i, h2⟩).id = i + 1 ∧
       ((Api.transformActionPlanToActions plan).get ⟨i, h2⟩).title
         = (plan.tasks.get ⟨i, h⟩).title ∧
       ((Api.transformActionPlanToActions plan).get ⟨i, h2⟩).oshaCode
         = jsHeadOr plan.standards_refs "OSHA General Duty") ∧
    (∀ r rs, plan.standards_refs = r :: rs → r ≠ "" →
       jsHeadOr plan.standards_refs "OSHA General Duty" = r) := by
  refine ⟨?_, ?_, ?_⟩
  · simp [Api.transformActionPlanToActions]
  · intro i h h2
    unfold Api.transformActionPlanToActions at h2 ⊢
    rw [List.get_mapIdx _ _ _ h]
    exact ⟨rfl, rfl, rfl⟩
  · intro r rs hrefs hr
    simp [jsHeadOr, hrefs, hr]

/-- C10 witness: the shape facts at a concrete two-task plan. -/
theorem c10_witness :
    (Api.transformActionPlanToActions demoPlan).length = demoPlan.tasks.length ∧
    ((Api.transformActionPlanToActions demoPlan).get ⟨1, by decide⟩).id = 2 ∧
    ((Api.transformActionPlanToActions demoPlan).get ⟨1, by decide⟩).title
      = "Perform daily stability check" ∧
    jsHeadOr demoPlan.standards_refs "OSHA General Duty" = "OSHA 1926.451(g)(1)" := by
  obtain ⟨hlen, hidx, hosha⟩ := c10_transform_action_plan_shape demoPlan
  refine ⟨hlen, (hidx 1 (by decide) (by decide)).1, ?_, ?_⟩
  · rw [(hidx 1 (by decide) (by decide)).2.1]
    decide
  · exact hosha "OSHA 1926.451(g)(1)" ["OSHA 1926.451(f)(3)"] rfl (by decide)
